import Mathlib

/-!
Verification of `teahaz/client.py` (the Teahaz API wrapper).

The Python module is shallowly embedded: dynamic JSON-like values become the
inductive `JValue` (arrays and objects are encoded as cons chains so that
decidable equality is derivable), the mutable `Chatroom` object becomes a
record threaded explicitly through each operation, the `requests` transport
is an oracle parameter (`HttpOutcome`) supplied per HTTP call, Python
callbacks are identified by opaque numeric ids, and raised Python exceptions
become `PyError` values in an `Except` result.  Each operation additionally
returns the list of HTTP requests it issued (method name plus keyword
arguments), so "never reaches the network" is expressible.
-/

/-- A Python/JSON value as handled by the client: `None`, booleans, integers,
strings, lists and dicts.  Lists and dicts are encoded as cons chains
(`arrNil`/`arrCons`, `objNil`/`objCons`) so `DecidableEq` derives. -/
inductive JValue where
  | null
  | bool (b : Bool)
  | num (n : Int)
  | str (s : String)
  | arrNil
  | arrCons (hd tl : JValue)
  | objNil
  | objCons (key : String) (val rest : JValue)
deriving DecidableEq

/-- Build an encoded JSON array from a Lean list. -/
def JValue.arrOf : List JValue → JValue
  | [] => .arrNil
  | x :: xs => .arrCons x (arrOf xs)

/-- Build an encoded JSON object from a Lean association list. -/
def JValue.objOf : List (String × JValue) → JValue
  | [] => .objNil
  | (k, v) :: xs => .objCons k v (objOf xs)

/-- Python exceptions that the client can raise.  `runtimeError` is the
"request failed with no error handler" `RuntimeError`; its structured fields
(method name, status code, response text) are the data interpolated into the
source's message string. -/
inductive PyError where
  | attributeError (attr : String)
  | valueError (msg : String)
  | keyError (key : String)
  | typeError (msg : String)
  | assertionError (msg : String)
  | runtimeError (method : String) (status : Nat) (text : String)
  | netException (e : String)
deriving DecidableEq

/-- Rendering of `str(value)` as used when a value is interpolated into a URL template.
Containers get a simplified rendering (no claim exercises them). -/
def pyStr : JValue → String
  | .null => "None"
  | .bool true => "True"
  | .bool false => "False"
  | .num n => toString n
  | .str s => s
  | .arrNil => "[]"
  | .arrCons _ _ => "[...]"
  | .objNil => "\x7b\x7d"
  | .objCons _ _ _ => "\x7b...\x7d"

/-- Python truthiness, as used by `assert self.user_id`. -/
def JValue.truthy : JValue → Bool
  | .null => false
  | .bool b => b
  | .num n => n != 0
  | .str s => s ≠ ""
  | .arrNil => false
  | .arrCons _ _ => true
  | .objNil => false
  | .objCons _ _ _ => true

/-- Subscripting `value[key]` for a string key: dict lookup (first matching key), a
`KeyError` when the key is absent, a `TypeError` on non-dict values. -/
def pySubscript : JValue → String → Except PyError JValue
  | .objCons k v rest, key => if k = key then .ok v else pySubscript rest key
  | .objNil, key => .error (.keyError key)
  | _, _ => .error (.typeError "value is not subscriptable by a string key")

/-- Iteration `for x in value`: lists yield their elements, dicts their keys, strings
their characters; other values raise `TypeError`. -/
def JValue.iterate : JValue → Except PyError (List JValue)
  | .arrNil => .ok []
  | .arrCons x rest => (iterate rest).map (x :: ·)
  | .objNil => .ok []
  | .objCons k _ rest => (iterate rest).map (.str k :: ·)
  | .str s => .ok (s.data.map (fun c => .str (String.mk [c])))
  | _ => .error (.typeError "value is not iterable")

/-- The events of `teahaz.client.Event`. -/
inductive Event where
  | ERROR
  | MSG_NEW
  | MSG_DEL
  | MSG_SYS
  | MSG_SENT
  | USER_JOIN
  | USER_LEAVE
  | SERVER_INFO
  | MSG_SYS_SILENT
  | NETWORK_EXCEPTION
deriving DecidableEq

/-- The `Channel` dataclass.  The source stores the raw values taken from the
server dict without runtime type checks, so every field is a `JValue`;
dataclass equality is structural equality of all four fields. -/
structure Channel where
  uid : JValue
  name : JValue
  public : JValue
  permissions : JValue
deriving DecidableEq

/-- A dynamically typed element of the list handed to
`Chatroom._update_channels`: the source passes server dicts (from `create`
and from the channel fetch) but also already-constructed `Channel` objects
(from `create_channel`). -/
inductive PyItem where
  | json (v : JValue)
  | chan (c : Channel)
deriving DecidableEq

/-- The classmethod `Channel.from_dict(data)`: reads the four keys from a server dict.
Applied to a `Channel` object (which is not subscriptable) it raises
`TypeError`, exactly as `data["channelID"]` does in Python. -/
def Channel.from_dict : PyItem → Except PyError Channel
  | .chan _ => .error (.typeError "Channel object is not subscriptable")
  | .json v => do
    let uid ← pySubscript v "channelID"
    let name ← pySubscript v "channel_name"
    let pub ← pySubscript v "public"
    let perms ← pySubscript v "permissions"
    .ok { uid := uid, name := name, public := pub, permissions := perms }

/-- The `EndpointContainer` instance state: the `_url` and `_uid` attributes
(the `_items` template table is a class constant, mirrored by
`endpointItems`). -/
structure EndpointContainer where
  url : JValue
  uid : JValue
deriving DecidableEq

/-- One piece of an endpoint template: a literal, or one of the placeholders
interpolated by `format(url=..., base=..., chatroom_id=...)`. -/
inductive TPart where
  | lit (s : String)
  | purl
  | pbase
  | pchatroomId
deriving DecidableEq

/-- The `EndpointContainer._items` template table. -/
def endpointItems : List (String × List TPart) :=
  [("base", [.purl, .lit "/api/v0"]),
   ("login", [.pbase, .lit "/login/", .pchatroomId]),
   ("chatroom", [.pbase, .lit "/chatroom"]),
   ("files", [.pbase, .lit "/files/", .pchatroomId]),
   ("messages", [.pbase, .lit "/messages/", .pchatroomId]),
   ("channels", [.pbase, .lit "/channels/", .pchatroomId])]

/-- Interpolate a template with the given url, base and chatroom-id strings. -/
def renderParts (urlv basev cidv : String) (ps : List TPart) : String :=
  ps.foldl
    (fun acc p =>
      acc ++ (match p with
        | .lit s => s
        | .purl => urlv
        | .pbase => basev
        | .pchatroomId => cidv)) ""

/-- The `base` endpoint: the special-cased non-recursing branch of
`__getattr__`, rendering only the `url` placeholder. -/
def EndpointContainer.base (e : EndpointContainer) : String :=
  renderParts (pyStr e.url) "" "" [.purl, .lit "/api/v0"]

/-- The method `EndpointContainer.__getattr__`: renders the requested template with the
stored url and uid (an unknown item raises `KeyError` from the dict lookup). -/
def EndpointContainer.getattr (e : EndpointContainer) (item : String) :
    Except PyError String :=
  if item = "base" then .ok e.base
  else
    match endpointItems.lookup item with
    | none => .error (.keyError item)
    | some ps => .ok (renderParts (pyStr e.url) e.base (pyStr e.uid) ps)

/-- The resolved `login` endpoint. -/
def EndpointContainer.epLogin (e : EndpointContainer) : String :=
  e.base ++ "/login/" ++ pyStr e.uid

/-- The resolved `chatroom` endpoint. -/
def EndpointContainer.epChatroom (e : EndpointContainer) : String :=
  e.base ++ "/chatroom"

/-- The resolved `files` endpoint. -/
def EndpointContainer.epFiles (e : EndpointContainer) : String :=
  e.base ++ "/files/" ++ pyStr e.uid

/-- The resolved `messages` endpoint. -/
def EndpointContainer.epMessages (e : EndpointContainer) : String :=
  e.base ++ "/messages/" ++ pyStr e.uid

/-- The resolved `channels` endpoint. -/
def EndpointContainer.epChannels (e : EndpointContainer) : String :=
  e.base ++ "/channels/" ++ pyStr e.uid

/-- The method `EndpointContainer.set(item, value)`: prefixes the key with `_` and
requires that an attribute of that name exists (`_url` or `_uid`; the
class-level `_items` table is never a target in the source), else raises
`KeyError`. -/
def EndpointContainer.set (e : EndpointContainer) (item : String)
    (value : JValue) : Except PyError EndpointContainer :=
  if item = "url" then .ok { e with url := value }
  else if item = "uid" then .ok { e with uid := value }
  else .error (.keyError ("Invalid setter key _" ++ item ++ "."))

/-- Keyword arguments of one HTTP call (`url=`, `headers=`, `json=`, ...). -/
abbrev ReqArgs := List (String × JValue)

/-- The transport oracle for one HTTP call: either the underlying library
raises a transport exception, or it produces a response with a status code,
an already-parsed JSON body, and the raw response text. -/
inductive HttpOutcome where
  | exc (e : String)
  | resp (status : Nat) (body : JValue) (text : String)
deriving DecidableEq

/-- The HTTP verb methods provided by the `requests.Session` connection
capability; `getattr(self.session, name)` raises `AttributeError` for names
outside the session's attribute set. -/
def sessionMethods : List String :=
  ["get", "options", "head", "post", "put", "patch", "delete", "request"]

/-- The outcome of one `Chatroom._request` call, keeping what each path does
observable: the returned JSON, a callback invocation together with the data
handed to the callback, or a raised exception. -/
inductive ReqOutcome where
  | ok (body : JValue)
  | handledError (cb : Nat) (status : Nat) (text : String) (method : String)
      (args : ReqArgs)
  | handledExc (cb : Nat) (e : String) (method : String) (args : ReqArgs)
  | raiseConfig (method : String)
  | raiseExc (e : String)
  | raiseFailed (method : String) (args : ReqArgs) (status : Nat)
      (text : String)
deriving DecidableEq

/-- Whether the outcome invoked a registered handler callback. -/
def ReqOutcome.invokesCallback : ReqOutcome → Bool
  | .handledError _ _ _ _ _ => true
  | .handledExc _ _ _ _ => true
  | _ => false

/-- Whether the outcome raised an exception to the caller. -/
def ReqOutcome.raises : ReqOutcome → Bool
  | .raiseConfig _ => true
  | .raiseExc _ => true
  | .raiseFailed _ _ _ _ => true
  | _ => false

/-- The Python-level result of `_request`: the parsed body on 200, `None`
when a handler captured the failure, or a raised exception. -/
def ReqOutcome.toPython : ReqOutcome → Except PyError (Option JValue)
  | .ok b => .ok (some b)
  | .handledError _ _ _ _ _ => .ok none
  | .handledExc _ _ _ _ => .ok none
  | .raiseConfig m => .error (.attributeError m)
  | .raiseExc e => .error (.netException e)
  | .raiseFailed m _ s t => .error (.runtimeError m s t)

/-- The `Chatroom` object state.  Callbacks are identified by opaque numeric
ids; `listeners` is the `_listeners` dict, `is_looping` the `_is_looping`
flag.  The `requests.Session` object is represented by the connection
capability `sessionMethods` (shared by all chatrooms). -/
structure Chatroom where
  uid : JValue
  url : String
  name : JValue
  interval : Int
  user_id : JValue
  active_channel : Option Channel
  channels : List Channel
  endpoints : EndpointContainer
  listeners : Event → Option Nat
  is_looping : Bool

/-- The constructor `Chatroom.__init__(url, uid, name, session)`. -/
def Chatroom.init (url : String) (uid name : JValue) : Chatroom :=
  { uid := uid, url := url, name := name, interval := 1, user_id := .null,
    active_channel := none, channels := [],
    endpoints := { url := .str url, uid := uid },
    listeners := fun _ => none, is_looping := false }

/-- The method `Chatroom._request(method_name, **req_args)`.  Attribute lookup of an
unknown method name on the session raises `AttributeError` before anything
else happens (the source's explicit `if method is None` guard is unreachable,
since `getattr` without a default raises instead of returning `None`).
Otherwise: a transport exception goes to the NETWORK_EXCEPTION handler when
one is registered (returning `None`) and is re-raised otherwise; a 200
response returns its parsed body; any other status goes to the ERROR handler
when one is registered (returning `None`) and otherwise raises the
`RuntimeError` carrying status code and response text. -/
def Chatroom.request (c : Chatroom) (method_name : String) (args : ReqArgs)
    (net : HttpOutcome) : ReqOutcome :=
  if sessionMethods.contains method_name = false then .raiseConfig method_name
  else
    match net with
    | .exc e =>
      match c.listeners Event.NETWORK_EXCEPTION with
      | some cb => .handledExc cb e method_name args
      | none => .raiseExc e
    | .resp status body text =>
      if status = 200 then .ok body
      else
        match c.listeners Event.ERROR with
        | some cb => .handledError cb status text method_name args
        | none => .raiseFailed method_name args status text

/-- Result of one mutating client operation: the updated chatroom, the trace
of `_request` calls it issued (method name and keyword arguments), and the
Python return value or raised exception. -/
structure OpResult (α : Type) where
  state : Chatroom
  trace : List (String × ReqArgs)
  ret : Except PyError α

/-- One `_request` call made from an operation: records the call in the trace
and interprets the outcome at the Python level. -/
def Chatroom.stepRequest (c : Chatroom) (method_name : String)
    (args : ReqArgs) (net : HttpOutcome) :
    List (String × ReqArgs) × Except PyError (Option JValue) :=
  ([(method_name, args)], (c.request method_name args net).toPython)

/-- The method `Chatroom.subscribe(event, callback)`: binds the callback (overwriting
any previous binding) and, when `_is_looping` is false and the event is not
ERROR or NETWORK_EXCEPTION, calls `_run()`.  The returned flag records
whether `_run` was invoked, i.e. whether a new polling thread was started;
note that nothing ever sets `_is_looping` to true. -/
def Chatroom.subscribe (c : Chatroom) (event : Event) (cb : Nat) :
    Chatroom × Bool :=
  let c1 : Chatroom :=
    { c with listeners := fun e => if e = event then some cb else c.listeners e }
  if !c1.is_looping && !(event = Event.ERROR ∨ event = Event.NETWORK_EXCEPTION : Bool) then
    (c1, true)
  else
    (c1, false)

/-- The method `Chatroom._notify(event, *data)` reduces to this lookup: the callback id
that would be invoked, if any (the loop body that drives it is dead code,
since the message fetch is stubbed to an empty batch). -/
def Chatroom.notify (c : Chatroom) (event : Event) : Option Nat :=
  c.listeners event

/-- The body of the merge loop of `_update_channels`: for each element,
construct a `Channel` via `from_dict`, appending it when it is not already
present (Python `in`, i.e. dataclass equality over all fields).  A raised
exception aborts the loop, keeping the already-appended prefix (the source
mutates `self.channels` in place). -/
def mergeChannels : List Channel → List PyItem →
    List Channel × Option PyError
  | acc, [] => (acc, none)
  | acc, item :: rest =>
    match Channel.from_dict item with
    | .error e => (acc, some e)
    | .ok ch =>
      mergeChannels (if ch ∈ acc then acc else acc ++ [ch]) rest

/-- The tail of `_update_channels` once the element list is at hand: merge,
then, when no exception interrupted and `active_channel` is still unset and
the channel list is non-empty, set `active_channel` to `self.channels[0]`. -/
def Chatroom.updateChannelsGiven (c : Chatroom) (items : List PyItem) :
    Chatroom × Option PyError :=
  let merged := mergeChannels c.channels items
  let c1 : Chatroom := { c with channels := merged.1 }
  match merged.2 with
  | some e => (c1, some e)
  | none =>
    match c1.active_channel, merged.1 with
    | none, ch0 :: _ => ({ c1 with active_channel := some ch0 }, none)
    | _, _ => (c1, none)

/-- The dynamically typed `channels` argument of `_update_channels`: `create`
passes the raw JSON taken from `response["channels"]`, while `create_channel`
passes a list of already-constructed `Channel` objects. -/
inductive ChannelsArg where
  | fromJson (v : JValue)
  | fromObjs (cs : List Channel)
deriving DecidableEq

/-- Iterating the `channels` argument into loop elements. -/
def ChannelsArg.toItems : ChannelsArg → Except PyError (List PyItem)
  | .fromJson v => (v.iterate).map (·.map PyItem.json)
  | .fromObjs cs => .ok (cs.map PyItem.chan)

/-- The method `Chatroom._update_channels(channels=None)`: asserts that `user_id` is
truthy, fetches the channel list with a GET when no argument was given
(returning early when the fetch failed but was captured by a handler), then
merges the elements and possibly sets `active_channel`.  The Python return
value is always `None`, so `ret` only distinguishes success from a raise. -/
def Chatroom.updateChannels (c : Chatroom) (arg : Option ChannelsArg)
    (net : HttpOutcome) : OpResult Unit :=
  if c.user_id.truthy = false then
    ⟨c, [], .error (.assertionError "Please log in before getting channels!")⟩
  else
    match arg with
    | some a =>
      match a.toItems with
      | .error e => ⟨c, [], .error e⟩
      | .ok items =>
        let r := c.updateChannelsGiven items
        ⟨r.1, [], match r.2 with | some e => .error e | none => .ok ()⟩
    | none =>
      let args : ReqArgs :=
        [("url", .str c.endpoints.epChannels),
         ("headers", .objOf [("userID", c.user_id)])]
      let step := c.stepRequest "get" args net
      match step.2 with
      | .error e => ⟨c, step.1, .error e⟩
      | .ok none => ⟨c, step.1, .ok ()⟩
      | .ok (some body) =>
        match (ChannelsArg.fromJson body).toItems with
        | .error e => ⟨c, step.1, .error e⟩
        | .ok items =>
          let r := c.updateChannelsGiven items
          ⟨r.1, step.1, match r.2 with | some e => .error e | none => .ok ()⟩

/-- The keyword arguments of the POST issued by `Chatroom.create`. -/
def Chatroom.createArgs (c : Chatroom) (username password : String) : ReqArgs :=
  [("headers", .objOf [("Content-Type", .str "application/json")]),
   ("url", .str c.endpoints.epChatroom),
   ("json", .objOf
     [("chatroom_name", c.name),
      ("username", .str username),
      ("password", .str password)])]

/-- The method `Chatroom.create(username, password)`: POSTs the creation payload and, on
a parsed response, assigns `name`, `uid` and `user_id` from the response
fields one by one (a missing key aborts mid-way, keeping earlier
assignments), binds the new uid into the endpoint container, and ingests
`response["channels"]`.  A captured failure (`None` response) returns early.
The Python return value is always `None`. -/
def Chatroom.create (c : Chatroom) (username password : String)
    (net : HttpOutcome) : OpResult Unit :=
  let step := c.stepRequest "post" (c.createArgs username password) net
  match step.2 with
  | .error e => ⟨c, step.1, .error e⟩
  | .ok none => ⟨c, step.1, .ok ()⟩
  | .ok (some response) =>
    match pySubscript response "chatroom_name" with
    | .error e => ⟨c, step.1, .error e⟩
    | .ok nameV =>
      let cA : Chatroom := { c with name := nameV }
      match pySubscript response "chatroomID" with
      | .error e => ⟨cA, step.1, .error e⟩
      | .ok uidV =>
        let cB : Chatroom := { cA with uid := uidV }
        match pySubscript response "userID" with
        | .error e => ⟨cB, step.1, .error e⟩
        | .ok userV =>
          let cC : Chatroom := { cB with user_id := userV }
          match cC.endpoints.set "uid" cC.uid with
          | .error e => ⟨cC, step.1, .error e⟩
          | .ok eps =>
            let cD : Chatroom := { cC with endpoints := eps }
            match pySubscript response "channels" with
            | .error e => ⟨cD, step.1, .error e⟩
            | .ok chansV =>
              let r := cD.updateChannels (some (.fromJson chansV)) net
              ⟨r.state, step.1 ++ r.trace, r.ret⟩

/-- The method `Chatroom.create_channel(name)`: POSTs the payload, returns `None` when
the failure was captured, otherwise constructs a `Channel` from the response
and hands the constructed object (not a dict) to `_update_channels`. -/
def Chatroom.create_channel (c : Chatroom) (name : String)
    (net : HttpOutcome) : OpResult (Option Channel) :=
  let args : ReqArgs :=
    [("url", .str c.endpoints.epChannels),
     ("json", .objOf [("userID", c.user_id), ("channel_name", .str name)])]
  let step := c.stepRequest "post" args net
  match step.2 with
  | .error e => ⟨c, step.1, .error e⟩
  | .ok none => ⟨c, step.1, .ok none⟩
  | .ok (some response) =>
    match Channel.from_dict (.json response) with
    | .error e => ⟨c, step.1, .error e⟩
    | .ok channel =>
      let r := c.updateChannels (some (.fromObjs [channel])) net
      match r.ret with
      | .error e => ⟨r.state, step.1 ++ r.trace, .error e⟩
      | .ok _ => ⟨r.state, step.1 ++ r.trace, .ok (some channel)⟩

/-- The keyword arguments of the POST issued by `Chatroom.login`. -/
def Chatroom.loginArgs (c : Chatroom) (user_id password : String) : ReqArgs :=
  [("url", .str c.endpoints.epLogin),
   ("json", .objOf
     [("userID", .str user_id), ("password", .str password)])]

/-- The method `Chatroom.login(user_id, password)`: POSTs the credentials; unless that
raises, assigns `self.user_id = user_id` unconditionally (also when the
request reported failure via a captured error) and then calls
`_update_channels()`, finally returning the response. -/
def Chatroom.login (c : Chatroom) (user_id password : String)
    (netLogin netChannels : HttpOutcome) : OpResult (Option JValue) :=
  let step := c.stepRequest "post" (c.loginArgs user_id password) netLogin
  match step.2 with
  | .error e => ⟨c, step.1, .error e⟩
  | .ok response =>
    let c1 : Chatroom := { c with user_id := .str user_id }
    let r := c1.updateChannels none netChannels
    match r.ret with
    | .error e => ⟨r.state, step.1 ++ r.trace, .error e⟩
    | .ok _ => ⟨r.state, step.1 ++ r.trace, .ok response⟩

/-- An optional string as the JSON value the source passes along. -/
def optStrToJ : Option String → JValue
  | none => .null
  | some s => .str s

/-- An optional integer as the JSON value the source passes along. -/
def optIntToJ : Option Int → JValue
  | none => .null
  | some n => .num n

/-- The message of the `ValueError` raised by `send` (and by the first raise
branch of `get_messages`) when no channel is available. -/
def missingChannelMsg : String :=
  "Please use either the Chatroom.set_channel() function" ++
    " or provide `channel` as a non-null value!"

/-- The opening-brace character (written via its code point). -/
def lbraceChar : Char := Char.ofNat 123

/-- The closing-brace character (written via its code point). -/
def rbraceChar : Char := Char.ofNat 125

/-- Scanner state of the `str.format` pass: outside a replacement field, or
inside one with the name characters read so far (reversed). -/
inductive FmtSt where
  | normal
  | inName (acc : List Char)
deriving DecidableEq

/-- One pass of `str.format(chatroom_id=v)` over the characters of the
template, for the subset of the format language the client exercises: plain
characters are copied, a field whose name is `chatroom_id` is substituted,
any other name raises `KeyError`, and stray braces raise `ValueError` (the
double-brace escapes are not modelled; every template the client formats is
brace-free once resolved). -/
def substCidGo (v : String) : FmtSt → List Char → Except PyError (List Char)
  | .normal, [] => .ok []
  | .normal, ch :: rest =>
    if ch = lbraceChar then substCidGo v (.inName []) rest
    else if ch = rbraceChar then
      .error (.valueError "single closing brace encountered in format string")
    else (substCidGo v .normal rest).map (ch :: ·)
  | .inName _, [] =>
    .error (.valueError "expected closing brace in format string")
  | .inName acc, ch :: rest =>
    if ch = rbraceChar then
      if String.mk acc.reverse = "chatroom_id" then
        (substCidGo v .normal rest).map (v.data ++ ·)
      else .error (.keyError (String.mk acc.reverse))
    else substCidGo v (.inName (ch :: acc)) rest

/-- Python `s.format(chatroom_id=value)` (the value is rendered with `str`). -/
def pyFormatCid (s : String) (value : JValue) : Except PyError String :=
  (substCidGo (pyStr value) .normal s.data).map String.mk

/-- The `content` argument of `Chatroom.send`: text or bytes (the
`isinstance(content, bytes)` test is the constructor distinction). -/
inductive Content where
  | text (s : String)
  | binary (bs : List Nat)
deriving DecidableEq

/-- The content as it appears in the `data` field of the message payload
(bytes modelled as the list of byte values). -/
def Content.toJ : Content → JValue
  | .text s => .str s
  | .binary bs => .arrOf (bs.map (fun b => .num (Int.ofNat b)))

/-- The channel-resolution prefix of `Chatroom.send`: an explicit channel is
stored into `active_channel`; with no explicit channel the current
`active_channel` is used; with neither, `ValueError` is raised.  Returns the
updated chatroom together with the channel that `self.active_channel` now
holds. -/
def Chatroom.resolveChannel (c : Chatroom) (channel : Option Channel) :
    Except PyError (Chatroom × Channel) :=
  match channel with
  | some ch => .ok ({ c with active_channel := some ch }, ch)
  | none =>
    match c.active_channel with
    | some ach => .ok (c, ach)
    | none => .error (.valueError missingChannelMsg)

/-- The method `Chatroom.get_messages(channel, count, time)`.  With an explicit channel
it is stored into `active_channel` and the GET is issued; with no explicit
channel the method always raises a `ValueError` — when `active_channel` is
unset the "set_channel or provide channel" message, and when `active_channel`
IS set the dead-end `else` branch "No channel was provided." (the fall-back
to the active channel is never taken). -/
def Chatroom.get_messages (c : Chatroom) (channel : Option Channel)
    (count time : Option Int) (net : HttpOutcome) : OpResult (Option JValue) :=
  match channel with
  | some ch =>
    let c1 : Chatroom := { c with active_channel := some ch }
    let args : ReqArgs :=
      [("url", .str c1.endpoints.epMessages),
       ("headers", .objOf
         [("channelID", ch.uid),
          ("count", optIntToJ count),
          ("time", optIntToJ time)])]
    let step := c1.stepRequest "get" args net
    ⟨c1, step.1, step.2⟩
  | none =>
    match c.active_channel with
    | none => ⟨c, [], .error (.valueError missingChannelMsg)⟩
    | some _ => ⟨c, [], .error (.valueError "No channel was provided.")⟩

/-- The method `Chatroom.send(content, channel, reply_id)`: resolves the channel (see
`resolveChannel`), picks the `files` endpoint for bytes and the `messages`
endpoint for text, builds the payload from `user_id`, the active channel's
uid, the reply id and the content, and POSTs it to
`self.url + endpoint.format(chatroom_id=self.uid)` — the base url prepended
to the already fully resolved endpoint. -/
def Chatroom.send (c : Chatroom) (content : Content)
    (channel : Option Channel) (reply_id : Option String)
    (net : HttpOutcome) : OpResult (Option JValue) :=
  match c.resolveChannel channel with
  | .error e => ⟨c, [], .error e⟩
  | .ok (c1, ach) =>
    let endpointStr : String :=
      match content with
      | .binary _ => c1.endpoints.epFiles
      | .text _ => c1.endpoints.epMessages
    let msg : JValue := .objOf
      [("userID", c1.user_id),
       ("channelID", ach.uid),
       ("replyID", optStrToJ reply_id),
       ("data", content.toJ)]
    match pyFormatCid endpointStr c1.uid with
    | .error e => ⟨c1, [], .error e⟩
    | .ok fmted =>
      let args : ReqArgs := [("url", .str (c1.url ++ fmted)), ("json", msg)]
      let step := c1.stepRequest "post" args net
      ⟨c1, step.1, step.2⟩

/-- The `Teacup` registry state (callback ids again stand for the Python
callables; `global_listeners` is the insertion-ordered dict). -/
structure Teacup where
  chatrooms : List Chatroom
  global_listeners : List (Event × Nat)

/-- Dict assignment `d[event] = cb` on the ordered association list. -/
def dictSet (l : List (Event × Nat)) (e : Event) (cb : Nat) :
    List (Event × Nat) :=
  if (l.lookup e).isSome then
    l.map (fun p => if p.1 = e then (e, cb) else p)
  else l ++ [(e, cb)]

/-- The loop `for event, callback in listeners.items(): chat.subscribe(event, callback)`. -/
def Chatroom.subscribeMany (c : Chatroom) (ls : List (Event × Nat)) : Chatroom :=
  ls.foldl (fun ch p => (ch.subscribe p.1 p.2).1) c

/-- The method `Teacup.subscribe_all(event, callback)`: subscribes on every held
chatroom and records the callback as a global listener. -/
def Teacup.subscribe_all (t : Teacup) (event : Event) (cb : Nat) : Teacup :=
  { chatrooms := t.chatrooms.map (fun c => (c.subscribe event cb).1),
    global_listeners := dictSet t.global_listeners event cb }

/-- The method `Teacup.create_chatroom(url, name, username, password)`: constructs a
fresh `Chatroom`, propagates every currently registered global listener to
it, and calls `chat.create`.  Since `Chatroom.create` returns `None` on
every non-raising path, the `if response is None: return None` early return
is always taken, so the method never returns the chatroom.  The chatroom is
also never appended to `self.chatrooms`. -/
def Teacup.create_chatroom (t : Teacup) (url name username password : String)
    (net : HttpOutcome) :
    Teacup × List (String × ReqArgs) × Except PyError (Option Chatroom) :=
  let chat := Chatroom.init url .null (.str name)
  let chat1 := chat.subscribeMany t.global_listeners
  let r := chat1.create username password net
  match r.ret with
  | .error e => (t, r.trace, .error e)
  | .ok _ => (t, r.trace, .ok none)

instance {e a : Type} [DecidableEq e] [DecidableEq a] : DecidableEq (Except e a) :=
  fun x y =>
    match x, y with
    | .ok v, .ok w =>
      if h : v = w then .isTrue (by rw [h])
      else .isFalse (fun hh => h (by cases hh; rfl))
    | .error v, .error w =>
      if h : v = w then .isTrue (by rw [h])
      else .isFalse (fun hh => h (by cases hh; rfl))
    | .ok _, .error _ => .isFalse (fun hh => Except.noConfusion hh)
    | .error _, .ok _ => .isFalse (fun hh => Except.noConfusion hh)

/-- A concrete server-side channel dict, used by the concrete scenarios. -/
def chDict : JValue := .objOf
  [("channelID", .str "ch1"), ("channel_name", .str "general"),
   ("public", .bool true), ("permissions", .objNil)]

/-- The `Channel` object that `Channel.from_dict` builds from `chDict`. -/
def chX : Channel := ⟨.str "ch1", .str "general", .bool true, .objNil⟩

/-- A chatroom-creation response whose `channels` list is empty. -/
def body1 : JValue := .objOf
  [("chatroom_name", .str "x"), ("chatroomID", .str "c1"),
   ("userID", .str "u1"), ("channels", .arrNil)]

/-- A chatroom-creation response whose `channels` list holds one channel. -/
def body2 : JValue := .objOf
  [("chatroom_name", .str "x"), ("chatroomID", .str "c1"),
   ("userID", .str "u1"), ("channels", .arrOf [chDict])]

/-- One state-mutating client operation, with its transport oracles. -/
inductive Op where
  | create (u p : String) (net : HttpOutcome)
  | create_channel (n : String) (net : HttpOutcome)
  | login (u p : String) (n1 n2 : HttpOutcome)
  | get_messages (channel : Option Channel) (count time : Option Int)
      (net : HttpOutcome)
  | send (content : Content) (channel : Option Channel)
      (reply : Option String) (net : HttpOutcome)
  | update (arg : Option ChannelsArg) (net : HttpOutcome)

/-- The chatroom state reached by one operation. -/
def Chatroom.applyOp (c : Chatroom) : Op → Chatroom
  | .create u p net => (c.create u p net).state
  | .create_channel n net => (c.create_channel n net).state
  | .login u p n1 n2 => (c.login u p n1 n2).state
  | .get_messages ch cnt tm net => (c.get_messages ch cnt tm net).state
  | .send ct ch r net => (c.send ct ch r net).state
  | .update arg net => (c.updateChannels arg net).state

/-- The chatroom state reached by a sequence of operations. -/
def Chatroom.applySeq (c : Chatroom) (ops : List Op) : Chatroom :=
  ops.foldl Chatroom.applyOp c

/-- Whether the explicit channel argument of an operation (if any) is already
a member of the chatroom's channel list at the time of the call. -/
def opArgOk (c : Chatroom) : Op → Bool
  | .get_messages (some ch) _ _ _ => decide (ch ∈ c.channels)
  | .send _ (some ch) _ _ => decide (ch ∈ c.channels)
  | _ => true

/-- Predicate `opArgOk` holding at every step along a sequence of operations. -/
def SeqOk (c : Chatroom) : List Op → Bool
  | [] => true
  | op :: rest => opArgOk c op && SeqOk (c.applyOp op) rest

/-- The invariant "a non-null `active_channel` is a member of `channels`". -/
def ActiveChannelInv (c : Chatroom) : Prop :=
  ∀ ch, c.active_channel = some ch → ch ∈ c.channels

/-- A string with no format braces (such strings are fixed points of
`str.format`). -/
def bracesFree (s : String) : Prop :=
  ∀ ch ∈ s.data, ch ≠ lbraceChar ∧ ch ≠ rbraceChar

instance (s : String) : Decidable (bracesFree s) :=
  inferInstanceAs (Decidable (∀ ch ∈ s.data, ch ≠ lbraceChar ∧ ch ≠ rbraceChar))

/-- The path segment `send` routes to for each content kind. -/
def sendPathOf : Content → String
  | .binary _ => "/files/"
  | .text _ => "/messages/"

/-- The chatroom state reached by `create` after the three field assignments
and the endpoint binding, before channel ingestion. -/
def Chatroom.createMid (c : Chatroom) (nv uv sv : JValue) : Chatroom :=
  { c with
    name := nv, uid := uv, user_id := sv,
    endpoints := { c.endpoints with uid := uv } }

/-- A single `_request` outcome never records both a callback invocation and
a raised exception. -/
theorem ReqOutcome.not_both (r : ReqOutcome) :
    ¬(r.invokesCallback = true ∧ r.raises = true) := by
  cases r <;> simp [ReqOutcome.invokesCallback, ReqOutcome.raises]

/-- A provided method name with a 200 response returns the parsed body. -/
theorem request_200 (c : Chatroom) (m : String) (args : ReqArgs)
    (body : JValue) (text : String) (hm : sessionMethods.contains m = true) :
    c.request m args (.resp 200 body text) = .ok body := by
  have hm2 : m ∈ sessionMethods := by simpa using hm
  simp [Chatroom.request, hm2]

/-- C1: for every `_request` call on a method the session provides whose HTTP
call yields a response, exactly one of three outcomes occurs — a 200 status
returns the parsed JSON body; a non-200 status with a registered ERROR
handler invokes that handler with the response data, the method name and the
request arguments and returns `None`; a non-200 status without an ERROR
handler raises the request-failed error carrying the status code and body
text — and no call both invokes a callback and raises. -/
theorem request_outcome_trichotomy (c : Chatroom) (m : String)
    (args : ReqArgs) (hm : sessionMethods.contains m = true) (status : Nat)
    (body : JValue) (text : String) :
    (status = 200 →
      c.request m args (.resp status body text) = .ok body ∧
      (c.request m args (.resp status body text)).toPython = .ok (some body)) ∧
    (status ≠ 200 → ∀ cb, c.listeners Event.ERROR = some cb →
      c.request m args (.resp status body text) =
        .handledError cb status text m args ∧
      (c.request m args (.resp status body text)).toPython = .ok none) ∧
    (status ≠ 200 → c.listeners Event.ERROR = none →
      c.request m args (.resp status body text) =
        .raiseFailed m args status text ∧
      (c.request m args (.resp status body text)).toPython =
        .error (.runtimeError m status text)) ∧
    ¬((c.request m args (.resp status body text)).invokesCallback = true ∧
      (c.request m args (.resp status body text)).raises = true) := by
  have hm2 : m ∈ sessionMethods := by simpa using hm
  refine ⟨?_, ?_, ?_, ReqOutcome.not_both _⟩
  · intro h200
    simp [Chatroom.request, hm2, h200, ReqOutcome.toPython]
  · intro hne cb hcb
    simp [Chatroom.request, hm2, hne, hcb, ReqOutcome.toPython]
  · intro hne hnone
    simp [Chatroom.request, hm2, hne, hnone, ReqOutcome.toPython]

/-- Witness for C1: a 404 with a registered ERROR handler invokes exactly
that handler with the response data and the call's identity. -/
theorem request_outcome_trichotomy_witness :
    sessionMethods.contains "get" = true ∧
    ((Chatroom.init "http://s" JValue.null JValue.null).subscribe
        Event.ERROR 5).1.request "get" [] (.resp 404 .null "nf") =
      .handledError 5 404 "nf" "get" [] := by
  refine ⟨by decide, ?_⟩
  exact ((request_outcome_trichotomy
    ((Chatroom.init "http://s" JValue.null JValue.null).subscribe
      Event.ERROR 5).1 "get" [] (by decide) 404 .null "nf").2.1
    (by decide) 5 (by decide)).1

/-- C9: a method name the session capability does not provide makes
`_request` fail with the configuration error raised by attribute lookup,
for every transport outcome; no handler is consulted. -/
theorem unknown_method_config_error (c : Chatroom) (m : String)
    (args : ReqArgs) (net : HttpOutcome)
    (hm : sessionMethods.contains m = false) :
    c.request m args net = .raiseConfig m ∧
    (c.request m args net).invokesCallback = false ∧
    (c.request m args net).toPython = .error (.attributeError m) := by
  have hm2 : m ∉ sessionMethods := by simpa using hm
  refine ⟨?_, ?_, ?_⟩ <;>
    simp [Chatroom.request, hm2, ReqOutcome.invokesCallback,
      ReqOutcome.toPython]

/-- Witness for C9: with both handlers registered, an unknown method name
still raises and invokes neither handler. -/
theorem unknown_method_config_error_witness :
    sessionMethods.contains "frobnicate" = false ∧
    ((((Chatroom.init "http://s" JValue.null JValue.null).subscribe
          Event.ERROR 1).1.subscribe Event.NETWORK_EXCEPTION 2).1.request
        "frobnicate" [] (.resp 500 .null "boom") = .raiseConfig "frobnicate" ∧
      ((((Chatroom.init "http://s" JValue.null JValue.null).subscribe
          Event.ERROR 1).1.subscribe Event.NETWORK_EXCEPTION 2).1.request
        "frobnicate" [] (.resp 500 .null "boom")).invokesCallback = false) := by
  refine ⟨by decide, ?_, ?_⟩
  · exact (unknown_method_config_error _ "frobnicate" [] (.resp 500 .null "boom")
      (by decide)).1
  · exact (unknown_method_config_error _ "frobnicate" [] (.resp 500 .null "boom")
      (by decide)).2.1

/-- C2 (behaviour at the claimed scenario): on a fresh chatroom, subscribing
to MSG_NEW twice invokes `_run` (starting a polling thread) BOTH times, and
`_is_looping` stays false throughout — nothing in the source ever sets it. -/
theorem subscribe_starts_loop_every_time :
    (let c0 := Chatroom.init "http://s" JValue.null JValue.null
     let r1 := c0.subscribe Event.MSG_NEW 0
     let r2 := r1.1.subscribe Event.MSG_NEW 1
     r1.2 = true ∧ r1.1.is_looping = false ∧ r2.2 = true ∧
       r2.1.is_looping = false) := by decide

/-- C3 (behaviour at the claimed scenario): with `active_channel` set and no
explicit channel, `get_messages` issues no request and raises the dead-end
"No channel was provided." `ValueError` instead of falling back to the
active channel; `send` in the same state does fall back and succeeds. -/
theorem get_messages_ignores_active_channel :
    (let c0 : Chatroom :=
      { Chatroom.init "http://s" (JValue.str "c1") JValue.null with
        active_channel := some chX, channels := [chX],
        user_id := JValue.str "u1" }
     let out := c0.get_messages none none none (.resp 200 .null "")
     let outSend := c0.send (.text "hi") none none (.resp 200 .null "")
     out.trace = [] ∧
       out.ret = .error (.valueError "No channel was provided.") ∧
       outSend.ret = .ok (some .null) ∧
       outSend.state.active_channel = some chX) := by decide

/-- C6 (behaviour at the claimed scenario): a logged-in chatroom whose
channel creation succeeds on the server raises `TypeError` — the constructed
`Channel` object is handed to `_update_channels`, which subscripts it as a
dict — and the created channel is never appended to the channel list. -/
theorem create_channel_typeerror :
    (let c0 : Chatroom :=
      { Chatroom.init "http://s" (JValue.str "c1") JValue.null with
        user_id := JValue.str "u1" }
     let out := c0.create_channel "general" (.resp 200 chDict "")
     out.ret = .error (.typeError "Channel object is not subscriptable") ∧
       out.state.channels = []) := by decide

/-- C5 (behaviour at the claimed scenario): `Teacup.create_chatroom` returns
`None` even when the remote creation succeeds (the propagated chatroom's
state does pick up the new chatroomID, showing success), because
`Chatroom.create` always returns `None` and the `response is None` early
return is therefore always taken. -/
theorem create_chatroom_returns_none :
    (let t : Teacup := ⟨[], [(Event.ERROR, 7)]⟩
     let out := t.create_chatroom "http://s" "room" "alice" "secret"
       (.resp 200 body1 "")
     out.2.2 = .ok none ∧
       (((Chatroom.init "http://s" JValue.null (.str "room")).subscribeMany
           [(Event.ERROR, 7)]).create "alice" "secret"
             (.resp 200 body1 "")).state.uid = JValue.str "c1") := by
  exact ⟨rfl, by decide⟩

/-- The function `updateChannelsGiven` only rewrites `channels` and `active_channel`. -/
theorem updateChannelsGiven_shape (c : Chatroom) (items : List PyItem) :
    ∃ chs ac, (c.updateChannelsGiven items).1 =
      { c with channels := chs, active_channel := ac } := by
  unfold Chatroom.updateChannelsGiven
  dsimp only
  split
  · exact ⟨_, _, rfl⟩
  · split
    · exact ⟨_, _, rfl⟩
    · exact ⟨_, _, rfl⟩

/-- The function `_update_channels` only rewrites `channels` and `active_channel`. -/
theorem updateChannels_shape (c : Chatroom) (arg : Option ChannelsArg)
    (net : HttpOutcome) :
    ∃ chs ac, (c.updateChannels arg net).state =
      { c with channels := chs, active_channel := ac } := by
  unfold Chatroom.updateChannels
  dsimp only
  split
  · exact ⟨_, _, rfl⟩
  · split
    · split
      · exact ⟨_, _, rfl⟩
      · exact updateChannelsGiven_shape c _
    · split
      · exact ⟨_, _, rfl⟩
      · exact ⟨_, _, rfl⟩
      · split
        · exact ⟨_, _, rfl⟩
        · exact updateChannelsGiven_shape c _

/-- The function `_update_channels` never touches `user_id`. -/
theorem updateChannels_user_id (c : Chatroom) (arg : Option ChannelsArg)
    (net : HttpOutcome) :
    (c.updateChannels arg net).state.user_id = c.user_id := by
  obtain ⟨chs, ac, h⟩ := updateChannels_shape c arg net
  rw [h]

/-- C8: whenever the login POST itself does not raise, `login` sets the
chatroom's `user_id` to the given identifier unconditionally — also when the
request reported failure through a captured error — and then triggers
`_update_channels()`: the final state is exactly the one `_update_channels`
produces from the user_id-updated state, and the trace is the login POST
followed by whatever `_update_channels` issued. -/
theorem login_sets_user_id_unconditionally (c : Chatroom) (uid pw : String)
    (n1 n2 : HttpOutcome)
    (h : (c.request "post" (c.loginArgs uid pw) n1).raises = false) :
    (c.login uid pw n1 n2).state.user_id = JValue.str uid ∧
    (c.login uid pw n1 n2).state =
      (({ c with user_id := JValue.str uid }).updateChannels none n2).state ∧
    (c.login uid pw n1 n2).trace =
      ("post", c.loginArgs uid pw) ::
        (({ c with user_id := JValue.str uid }).updateChannels none n2).trace := by
  unfold Chatroom.login Chatroom.stepRequest
  cases hr : c.request "post" (c.loginArgs uid pw) n1
  case raiseConfig => rw [hr] at h; simp [ReqOutcome.raises] at h
  case raiseExc => rw [hr] at h; simp [ReqOutcome.raises] at h
  case raiseFailed => rw [hr] at h; simp [ReqOutcome.raises] at h
  all_goals
    dsimp only [ReqOutcome.toPython]
  all_goals
    cases hru : (({ c with user_id := JValue.str uid }).updateChannels
      none n2).ret
  all_goals
    exact ⟨updateChannels_user_id _ _ _, rfl, rfl⟩

/-- Witness for C8: a login whose POST gets a 404 captured by a registered
ERROR handler (so the request "reports failure") still ends with `user_id`
set to the requested identifier. -/
theorem login_sets_user_id_unconditionally_witness :
    ((((Chatroom.init "http://s" (.str "c1") .null).subscribe
        Event.ERROR 9).1).request "post"
        ((((Chatroom.init "http://s" (.str "c1") .null).subscribe
          Event.ERROR 9).1).loginArgs "u1" "pw")
        (.resp 404 .null "denied")).raises = false ∧
    ((((Chatroom.init "http://s" (.str "c1") .null).subscribe
        Event.ERROR 9).1).login "u1" "pw" (.resp 404 .null "denied")
        (.resp 404 .null "denied")).state.user_id = JValue.str "u1" := by
  refine ⟨by decide, ?_⟩
  exact (login_sets_user_id_unconditionally
    (((Chatroom.init "http://s" (.str "c1") .null).subscribe Event.ERROR 9).1)
    "u1" "pw" (.resp 404 .null "denied") (.resp 404 .null "denied")
    (by decide)).1

/-- C4: a `create` call whose POST succeeds with a parsed body carrying the
four expected fields sets `name`, `uid` and `user_id` from `chatroom_name`,
`chatroomID` and `userID`, binds the new identifier into the endpoint
container, and hands `response["channels"]` to `_update_channels` — the
whole result equals the channel-ingestion pipeline run on the field-updated
state. -/
theorem create_sets_fields_and_ingests (c : Chatroom) (u p : String)
    (body : JValue) (text : String) (nv uv sv cv : JValue)
    (hn : pySubscript body "chatroom_name" = .ok nv)
    (hu : pySubscript body "chatroomID" = .ok uv)
    (hs : pySubscript body "userID" = .ok sv)
    (hc : pySubscript body "channels" = .ok cv) :
    (c.create u p (.resp 200 body text)).state.name = nv ∧
    (c.create u p (.resp 200 body text)).state.uid = uv ∧
    (c.create u p (.resp 200 body text)).state.user_id = sv ∧
    (c.create u p (.resp 200 body text)).state.endpoints =
      { c.endpoints with uid := uv } ∧
    c.create u p (.resp 200 body text) =
      (let r := (c.createMid nv uv sv).updateChannels
        (some (.fromJson cv)) (.resp 200 body text)
       ⟨r.state, [("post", c.createArgs u p)] ++ r.trace, r.ret⟩) := by
  have hreq : c.request "post" (c.createArgs u p) (.resp 200 body text) =
      .ok body := request_200 c "post" _ body text (by decide)
  have hmain : c.create u p (.resp 200 body text) =
      (let r := (c.createMid nv uv sv).updateChannels
        (some (.fromJson cv)) (.resp 200 body text)
       ⟨r.state, [("post", c.createArgs u p)] ++ r.trace, r.ret⟩) := by
    unfold Chatroom.create Chatroom.stepRequest Chatroom.createMid
    rw [hreq]
    dsimp only [ReqOutcome.toPython]
    rw [hn]
    dsimp only
    rw [hu]
    dsimp only
    rw [hs]
    dsimp only [EndpointContainer.set]
    rw [hc, if_neg (by decide), if_pos rfl]
  obtain ⟨chs, ac, hsh⟩ := updateChannels_shape
    (c.createMid nv uv sv) (some (.fromJson cv)) (.resp 200 body text)
  refine ⟨?_, ?_, ?_, ?_, hmain⟩ <;>
    rw [hmain] <;> dsimp only <;> rw [hsh] <;> simp [Chatroom.createMid]

/-- Witness for C4, covering both claimed scenarios: creation against
`body2` (one channel) sets the fields, binds the uid, and ends with
`active_channel` equal to that channel; creation against `body1` (empty
channel list) ends with no channels and no active channel. -/
theorem create_sets_fields_and_ingests_witness :
    pySubscript body2 "chatroom_name" = .ok (.str "x") ∧
    pySubscript body2 "chatroomID" = .ok (.str "c1") ∧
    pySubscript body2 "userID" = .ok (.str "u1") ∧
    pySubscript body2 "channels" = .ok (.arrOf [chDict]) ∧
    ((Chatroom.init "http://s" .null (.str "x")).create "alice" "secret"
        (.resp 200 body2 "")).state.name = JValue.str "x" ∧
    ((Chatroom.init "http://s" .null (.str "x")).create "alice" "secret"
        (.resp 200 body2 "")).state.uid = JValue.str "c1" ∧
    ((Chatroom.init "http://s" .null (.str "x")).create "alice" "secret"
        (.resp 200 body2 "")).state.user_id = JValue.str "u1" ∧
    ((Chatroom.init "http://s" .null (.str "x")).create "alice" "secret"
        (.resp 200 body2 "")).state.endpoints =
      { (Chatroom.init "http://s" .null (.str "x")).endpoints with
        uid := JValue.str "c1" } ∧
    ((Chatroom.init "http://s" .null (.str "x")).create "alice" "secret"
        (.resp 200 body2 "")).state.channels = [chX] ∧
    ((Chatroom.init "http://s" .null (.str "x")).create "alice" "secret"
        (.resp 200 body2 "")).state.active_channel = some chX ∧
    ((Chatroom.init "http://s" .null (.str "x")).create "alice" "secret"
        (.resp 200 body1 "")).state.channels = [] ∧
    ((Chatroom.init "http://s" .null (.str "x")).create "alice" "secret"
        (.resp 200 body1 "")).state.active_channel = none := by
  have h := create_sets_fields_and_ingests
    (Chatroom.init "http://s" .null (.str "x")) "alice" "secret" body2 ""
    (.str "x") (.str "c1") (.str "u1") (.arrOf [chDict])
    (by decide) (by decide) (by decide) (by decide)
  exact ⟨by decide, by decide, by decide, by decide, h.1, h.2.1, h.2.2.1,
    h.2.2.2.1, by decide, by decide, by decide, by decide⟩

/-- Channels already present survive the merge loop: the loop only appends. -/
theorem mem_mergeChannels (items : List PyItem) (acc : List Channel)
    (x : Channel) (hx : x ∈ acc) : x ∈ (mergeChannels acc items).1 := by
  induction items generalizing acc with
  | nil => simpa [mergeChannels] using hx
  | cons i rest ih =>
    unfold mergeChannels
    cases hfd : Channel.from_dict i with
    | error e => simpa using hx
    | ok ch =>
      dsimp only
      by_cases hmem : ch ∈ acc
      · rw [if_pos hmem]
        exact ih acc hx
      · rw [if_neg hmem]
        exact ih _ (List.mem_append_left _ hx)

/-- The merge-and-set-active tail of `_update_channels` preserves the
active-channel invariant. -/
theorem updateChannelsGiven_inv (c : Chatroom) (items : List PyItem)
    (h : ActiveChannelInv c) :
    ActiveChannelInv (c.updateChannelsGiven items).1 := by
  have hmem : ∀ x ∈ c.channels, x ∈ (mergeChannels c.channels items).1 :=
    fun x hx => mem_mergeChannels items c.channels x hx
  unfold Chatroom.updateChannelsGiven
  dsimp only
  cases herr : (mergeChannels c.channels items).2 with
  | some e =>
    intro ch hch
    exact hmem ch (h ch hch)
  | none =>
    cases hac : c.active_channel with
    | some a =>
      intro ch hch
      obtain rfl := Option.some.inj hch
      exact hmem _ (h _ hac)
    | none =>
      cases hl : (mergeChannels c.channels items).1 with
      | nil =>
        intro ch hch
        exact Option.noConfusion hch
      | cons ch0 tl =>
        intro ch hch
        obtain rfl := Option.some.inj hch
        exact List.mem_cons_self _ _

/-- The function `_update_channels` preserves the active-channel invariant. -/
theorem updateChannels_inv (c : Chatroom) (arg : Option ChannelsArg)
    (net : HttpOutcome) (h : ActiveChannelInv c) :
    ActiveChannelInv (c.updateChannels arg net).state := by
  unfold Chatroom.updateChannels
  dsimp only
  repeat' split
  all_goals first
    | exact h
    | exact updateChannelsGiven_inv c _ h

/-- The method `create` preserves the active-channel invariant. -/
theorem create_inv (c : Chatroom) (u p : String) (net : HttpOutcome)
    (h : ActiveChannelInv c) : ActiveChannelInv (c.create u p net).state := by
  unfold Chatroom.create Chatroom.stepRequest
  dsimp only
  repeat' split
  all_goals first
    | exact h
    | exact updateChannels_inv _ _ _ h

/-- The method `create_channel` preserves the active-channel invariant. -/
theorem create_channel_inv (c : Chatroom) (n : String) (net : HttpOutcome)
    (h : ActiveChannelInv c) :
    ActiveChannelInv (c.create_channel n net).state := by
  unfold Chatroom.create_channel Chatroom.stepRequest
  dsimp only
  repeat' split
  all_goals first
    | exact h
    | exact updateChannels_inv _ _ _ h

/-- The method `login` preserves the active-channel invariant. -/
theorem login_inv (c : Chatroom) (u p : String) (n1 n2 : HttpOutcome)
    (h : ActiveChannelInv c) :
    ActiveChannelInv (c.login u p n1 n2).state := by
  unfold Chatroom.login Chatroom.stepRequest
  dsimp only
  repeat' split
  all_goals first
    | exact h
    | exact updateChannels_inv _ _ _ h

/-- The method `get_messages` preserves the invariant when any explicit channel is
already a member of the channel list. -/
theorem get_messages_inv (c : Chatroom) (channel : Option Channel)
    (count time : Option Int) (net : HttpOutcome) (h : ActiveChannelInv c)
    (harg : ∀ ch, channel = some ch → ch ∈ c.channels) :
    ActiveChannelInv (c.get_messages channel count time net).state := by
  unfold Chatroom.get_messages
  cases channel with
  | some ch =>
    dsimp only
    intro a ha
    obtain rfl := Option.some.inj ha
    exact harg _ rfl
  | none =>
    cases hac : c.active_channel with
    | none => exact h
    | some a => exact h

/-- The method `send` preserves the invariant when any explicit channel is already a
member of the channel list. -/
theorem send_inv (c : Chatroom) (content : Content)
    (channel : Option Channel) (reply : Option String) (net : HttpOutcome)
    (h : ActiveChannelInv c)
    (harg : ∀ ch, channel = some ch → ch ∈ c.channels) :
    ActiveChannelInv (c.send content channel reply net).state := by
  unfold Chatroom.send Chatroom.resolveChannel Chatroom.stepRequest
  cases channel with
  | some ch =>
    dsimp only
    split
    all_goals
      intro a ha
      obtain rfl := Option.some.inj ha
      exact harg _ rfl
  | none =>
    cases hac : c.active_channel with
    | none => exact h
    | some a =>
      dsimp only
      split
      all_goals exact h

/-- C7 (amended): along any sequence of create / create_channel / login /
get_messages / send / _update_channels operations in which every explicitly
passed channel argument is already a member of the chatroom's channel list
at the time of that call, a non-null `active_channel` is always a member of
`channels`.  (Unrestricted, the claim is false: `get_messages` and `send`
store an arbitrary explicit channel into `active_channel` without adding it
to `channels` — see the counterexample.) -/
theorem active_channel_invariant_preserved (ops : List Op) (c : Chatroom)
    (hInv : ActiveChannelInv c) (hok : SeqOk c ops = true) :
    ActiveChannelInv (c.applySeq ops) := by
  induction ops generalizing c with
  | nil => exact hInv
  | cons op rest ih =>
    simp only [SeqOk, Bool.and_eq_true] at hok
    obtain ⟨h1, h2⟩ := hok
    have hstep : ActiveChannelInv (c.applyOp op) := by
      cases op with
      | create u p net => exact create_inv c u p net hInv
      | create_channel n net => exact create_channel_inv c n net hInv
      | login u p n1 n2 => exact login_inv c u p n1 n2 hInv
      | get_messages ch cnt tm net =>
        refine get_messages_inv c ch cnt tm net hInv ?_
        intro x hx
        subst hx
        simpa [opArgOk] using h1
      | send ct ch r net =>
        refine send_inv c ct ch r net hInv ?_
        intro x hx
        subst hx
        simpa [opArgOk] using h1
      | update arg net => exact updateChannels_inv c arg net hInv
    exact ih (c.applyOp op) hstep h2

/-- Counterexample to C7 as stated: one `send` with an explicit channel on a
fresh chatroom leaves `active_channel` pointing at a channel that is not in
`channels`. -/
theorem active_channel_invariant_counterexample :
    (let out := (Chatroom.init "http://s" JValue.null JValue.null).send
      (.text "hi") (some chX) none (.resp 200 .null "")
     out.state.active_channel = some chX ∧ chX ∉ out.state.channels ∧
       ¬ ActiveChannelInv out.state) := by
  refine ⟨by decide, by decide, ?_⟩
  intro hinv
  exact absurd (hinv chX (by decide)) (by decide)

/-- Witness for the amended C7: a login that ingests one channel followed by
a `send` whose explicit channel is that member keeps the invariant. -/
theorem active_channel_invariant_preserved_witness :
    ActiveChannelInv (Chatroom.init "http://s" (.str "c1") .null) ∧
    SeqOk (Chatroom.init "http://s" (.str "c1") .null)
      [.login "u1" "pw" (.resp 200 .null "") (.resp 200 (.arrOf [chDict]) ""),
       .send (.text "hi") (some chX) none (.resp 200 .null "")] = true ∧
    ActiveChannelInv ((Chatroom.init "http://s" (.str "c1") .null).applySeq
      [.login "u1" "pw" (.resp 200 .null "") (.resp 200 (.arrOf [chDict]) ""),
       .send (.text "hi") (some chX) none (.resp 200 .null "")]) := by
  refine ⟨fun ch hch => Option.noConfusion hch, by decide, ?_⟩
  exact active_channel_invariant_preserved
    [.login "u1" "pw" (.resp 200 .null "") (.resp 200 (.arrOf [chDict]) ""),
     .send (.text "hi") (some chX) none (.resp 200 .null "")]
    (Chatroom.init "http://s" (.str "c1") .null)
    (fun ch hch => Option.noConfusion hch) (by decide)

/-- Appending the empty string on the left is the identity. -/
theorem string_empty_append (s : String) : "" ++ s = s := rfl

/-- String concatenation acts as concatenation of the character lists. -/
theorem string_append_data (s t : String) : (s ++ t).data = s.data ++ t.data :=
  rfl

/-- A brace-free character list is a fixed point of the format scanner. -/
theorem substCidGo_id (v : String) (l : List Char)
    (h : ∀ ch ∈ l, ch ≠ lbraceChar ∧ ch ≠ rbraceChar) :
    substCidGo v .normal l = .ok l := by
  induction l with
  | nil => rfl
  | cons a rest ih =>
    have ha := h a (List.mem_cons_self a rest)
    unfold substCidGo
    rw [if_neg ha.1, if_neg ha.2,
      ih (fun x hx => h x (List.mem_cons_of_mem a hx))]
    rfl

/-- A brace-free string is a fixed point of `format(chatroom_id=...)`. -/
theorem pyFormatCid_id (s : String) (v : JValue) (h : bracesFree s) :
    pyFormatCid s v = .ok s := by
  unfold pyFormatCid
  rw [substCidGo_id (pyStr v) s.data h]
  rfl

/-- Brace-freeness is preserved by concatenation. -/
theorem bracesFree_append (s t : String) (hs : bracesFree s)
    (ht : bracesFree t) : bracesFree (s ++ t) := by
  intro ch hch
  rw [string_append_data] at hch
  rcases List.mem_append.mp hch with h1 | h1
  · exact hs ch h1
  · exact ht ch h1

/-- The resolved `messages` endpoint in terms of the chatroom's base url,
when the endpoint container still holds that url. -/
theorem epMessages_resolved (c : Chatroom)
    (hep : c.endpoints.url = .str c.url) :
    c.endpoints.epMessages =
      c.url ++ "/api/v0" ++ "/messages/" ++ pyStr c.endpoints.uid := by
  unfold EndpointContainer.epMessages EndpointContainer.base renderParts
  rw [hep]
  rfl

/-- The resolved `files` endpoint in terms of the chatroom's base url, when
the endpoint container still holds that url. -/
theorem epFiles_resolved (c : Chatroom)
    (hep : c.endpoints.url = .str c.url) :
    c.endpoints.epFiles =
      c.url ++ "/api/v0" ++ "/files/" ++ pyStr c.endpoints.uid := by
  unfold EndpointContainer.epFiles EndpointContainer.base renderParts
  rw [hep]
  rfl

/-- C10: every `send` that reaches the request step POSTs to the base url
concatenated with the already fully resolved endpoint — and that endpoint
itself begins with the base url, so the request URL contains the base
service URL twice; the files endpoint is used for binary content and the
messages endpoint for text. -/
theorem send_url_duplicates_base (c : Chatroom) (content : Content)
    (channel : Option Channel) (reply : Option String) (net : HttpOutcome)
    (hep : c.endpoints.url = .str c.url)
    (hnb1 : bracesFree c.url)
    (hnb2 : bracesFree (pyStr c.endpoints.uid))
    (hch : channel = none → c.active_channel ≠ none) :
    ∃ msg, (c.send content channel reply net).trace =
      [("post",
        [("url", .str (c.url ++ (c.url ++ "/api/v0" ++ sendPathOf content ++
           pyStr c.endpoints.uid))),
         ("json", msg)])] ∧
      c.url ++ "/api/v0" ++ sendPathOf content ++ pyStr c.endpoints.uid =
        (match content with
         | .binary _ => c.endpoints.epFiles
         | .text _ => c.endpoints.epMessages) := by
  cases content with
  | text s =>
    have hend := epMessages_resolved c hep
    have hfree : bracesFree
        (c.url ++ "/api/v0" ++ "/messages/" ++ pyStr c.endpoints.uid) :=
      bracesFree_append _ _ (bracesFree_append _ _
        (bracesFree_append _ _ hnb1 (by decide)) (by decide)) hnb2
    have hfmt : pyFormatCid c.endpoints.epMessages c.uid =
        .ok (c.url ++ "/api/v0" ++ "/messages/" ++ pyStr c.endpoints.uid) := by
      rw [hend]
      exact pyFormatCid_id _ _ hfree
    unfold Chatroom.send Chatroom.resolveChannel Chatroom.stepRequest
    cases channel with
    | some ch =>
      dsimp only
      rw [hfmt]
      exact ⟨_, rfl, hend.symm⟩
    | none =>
      cases hac : c.active_channel with
      | none => exact absurd hac (hch rfl)
      | some ach =>
        dsimp only
        rw [hfmt]
        exact ⟨_, rfl, hend.symm⟩
  | binary bs =>
    have hend := epFiles_resolved c hep
    have hfree : bracesFree
        (c.url ++ "/api/v0" ++ "/files/" ++ pyStr c.endpoints.uid) :=
      bracesFree_append _ _ (bracesFree_append _ _
        (bracesFree_append _ _ hnb1 (by decide)) (by decide)) hnb2
    have hfmt : pyFormatCid c.endpoints.epFiles c.uid =
        .ok (c.url ++ "/api/v0" ++ "/files/" ++ pyStr c.endpoints.uid) := by
      rw [hend]
      exact pyFormatCid_id _ _ hfree
    unfold Chatroom.send Chatroom.resolveChannel Chatroom.stepRequest
    cases channel with
    | some ch =>
      dsimp only
      rw [hfmt]
      exact ⟨_, rfl, hend.symm⟩
    | none =>
      cases hac : c.active_channel with
      | none => exact absurd hac (hch rfl)
      | some ach =>
        dsimp only
        rw [hfmt]
        exact ⟨_, rfl, hend.symm⟩

/-- Witness for C10: a concrete text send on a fresh chatroom with uid `c1`
POSTs to a URL in which the base `http://s` occurs twice. -/
theorem send_url_duplicates_base_witness :
    (Chatroom.init "http://s" (.str "c1") .null).endpoints.url =
      JValue.str (Chatroom.init "http://s" (.str "c1") .null).url ∧
    bracesFree (Chatroom.init "http://s" (.str "c1") .null).url ∧
    bracesFree
      (pyStr (Chatroom.init "http://s" (.str "c1") .null).endpoints.uid) ∧
    ∃ msg, ((Chatroom.init "http://s" (.str "c1") .null).send (.text "hi")
        (some chX) none (.resp 200 .null "")).trace =
      [("post", [("url", .str "http://shttp://s/api/v0/messages/c1"),
        ("json", msg)])] := by
  refine ⟨by decide, by decide, by decide, ?_⟩
  obtain ⟨msg, h1, h2⟩ := send_url_duplicates_base
    (Chatroom.init "http://s" (.str "c1") .null) (.text "hi") (some chX) none
    (.resp 200 .null "") (by decide) (by decide) (by decide)
    (fun h => Option.noConfusion h)
  refine ⟨msg, ?_⟩
  rw [h1]
  rfl
